import Mathlib

/-!
Shallow embedding of the jira-create-issue command-line tool
(`create_issue.py`, `jira_utils.py`) together with proofs about its
field-classification, value-conversion, credential-resolution, parsing
and issue-linking logic.

Python failure modes (uncaught exceptions, and `log.error(...); exit()`
sequences) are modelled with an explicit error type `PyError` inside the
`Except` monad.  External Jira API calls are modelled as oracle functions
bundled in a `JiraClient` structure; a call that raises is an oracle
returning `Except.error`.
-/

namespace CreateIssue

/-- Observable failure of a Python code path: either an uncaught exception
(of the given kind) or an intentional `log.error(...); exit()`. -/
inductive PyError
  | exitLogged (msg : String)
  | attributeError (attr : String)
  | typeError (msg : String)
  | keyError (key : String)
  | indexError
  | unboundLocal (varName : String)
  | undefinedVariable (varName : String)
  | valueError (msg : String)
deriving DecidableEq

/-- JSON-shaped values produced by the converters and submitted as the
issue-creation payload. -/
inductive JsonValue
  | str (s : String)
  | num (n : Int)
  | obj (fields : List (String × JsonValue))
  | arr (elems : List JsonValue)

/-- Python `values[0]`: first element, or an `IndexError`. -/
def pyHead {α : Type} (values : List α) : Except PyError α :=
  match values with
  | [] => .error .indexError
  | v :: _ => .ok v

/-- The `JiraFieldType` enum of `create_issue.py`. -/
inductive JiraFieldType
  | NONE
  | ARRAY
  | STRING
  | ENUM
  | TIME_TRACKING
deriving DecidableEq

/-- One entry of a field's `allowedValues` list: a raw mapping with
optional `value` and `name` attributes and an `id` (class
`JiraAllowedValueInformation`). -/
structure JiraAllowedValueInformation where
  value : Option String
  name : Option String
  id : String
deriving DecidableEq

/-- Source `JiraAllowedValueInformation.get_value`: the `value` attribute if
present, else the `name` attribute, else `log.error(...); exit()`. -/
def get_value (av : JiraAllowedValueInformation) : Except PyError String :=
  match av.value with
  | some v => .ok v
  | none =>
    match av.name with
    | some n => .ok n
    | none => .error (.exitLogged "No value or name fields in allowed values information")

/-- The `schema` sub-mapping of a field's raw description: a declared
`type` marker and an optional `items` marker for arrays. -/
structure FieldSchema where
  type : String
  items : Option String
deriving DecidableEq

/-- One field's raw schema description (class `JiraFieldInformation`):
`name`, `key`, `schema`, and the optional top-level `allowedValues`
attribute. -/
structure FieldInformation where
  name : String
  key : String
  schema : FieldSchema
  allowedValues : Option (List JiraAllowedValueInformation)
deriving DecidableEq

/-- Source `JiraFieldInformation.get_type`: classify a field from its declared
schema type marker, falling back to ENUM when the raw information carries
an `allowedValues` attribute. -/
def get_type (fi : FieldInformation) : JiraFieldType :=
  if fi.schema.type = "array" then JiraFieldType.ARRAY
  else if fi.schema.type = "string" then JiraFieldType.STRING
  else if fi.allowedValues.isSome then JiraFieldType.ENUM
  else JiraFieldType.NONE

/-- Source `JiraFieldInformation.get_items_type`: the same decision order applied
to the schema's nested `items` marker; NONE when no `items` is present. -/
def get_items_type (fi : FieldInformation) : JiraFieldType :=
  match fi.schema.items with
  | none => JiraFieldType.NONE
  | some t =>
    if t = "array" then JiraFieldType.ARRAY
    else if t = "string" then JiraFieldType.STRING
    else if fi.allowedValues.isSome then JiraFieldType.ENUM
    else JiraFieldType.NONE

/-- Python-dict lookup in an insertion-ordered association list: the most
recent binding of a key wins. -/
def dictFind {α : Type} (d : List (String × α)) (k : String) : Option α :=
  (d.reverse.find? (fun p => p.1 == k)).map (fun p => p.2)

/-- The loop body of `get_allowed_values`: wrap each raw allowed value and
key it by its display value; the first malformed entry aborts. -/
def build_allowed_values :
    List JiraAllowedValueInformation →
    Except PyError (List (String × JiraAllowedValueInformation))
  | [] => .ok []
  | av :: rest => do
    let v ← get_value av
    let d ← build_allowed_values rest
    .ok ((v, av) :: d)

/-- Source `JiraFieldInformation.get_allowed_values`: `none` unless the field's
own type or its item type is ENUM; otherwise the display-value-keyed
dictionary of allowed values. -/
def get_allowed_values (fi : FieldInformation) :
    Except PyError (Option (List (String × JiraAllowedValueInformation))) :=
  if get_type fi ≠ JiraFieldType.ENUM ∧ get_items_type fi ≠ JiraFieldType.ENUM then
    .ok none
  else
    match fi.allowedValues with
    | none => .error (.keyError "allowedValues")
    | some l => (build_allowed_values l).map some

/-- C3: for every field schema the classifier returns exactly one of
ARRAY, STRING, ENUM, NONE (never TIME_TRACKING), follows the decision
order declared-type "array" → ARRAY, else "string" → STRING, else
presence of an allowedValues attribute → ENUM, else NONE, and depends
only on the schema's declared type marker and that presence. -/
theorem get_type_spec (fi : FieldInformation) :
    (get_type fi = JiraFieldType.ARRAY ∨ get_type fi = JiraFieldType.STRING ∨
     get_type fi = JiraFieldType.ENUM ∨ get_type fi = JiraFieldType.NONE) ∧
    get_type fi ≠ JiraFieldType.TIME_TRACKING ∧
    get_type fi =
      (if fi.schema.type = "array" then JiraFieldType.ARRAY
       else if fi.schema.type = "string" then JiraFieldType.STRING
       else if fi.allowedValues.isSome then JiraFieldType.ENUM
       else JiraFieldType.NONE) ∧
    (∀ fi' : FieldInformation, fi.schema.type = fi'.schema.type →
      fi.allowedValues.isSome = fi'.allowedValues.isSome →
      get_type fi = get_type fi') := by
  refine ⟨?_, ?_, rfl, ?_⟩
  · unfold get_type
    split_ifs <;> simp
  · unfold get_type
    split_ifs <;> simp
  · intro fi' h1 h2
    unfold get_type
    rw [h1, h2]

/-- Concrete field used in witnesses: an option-typed field with one
allowed value. -/
def fiPriority : FieldInformation :=
  { name := "Priority", key := "priority",
    schema := { type := "option", items := none },
    allowedValues := some [{ value := some "High", name := none, id := "1" }] }

/-- Second concrete field agreeing with `fiPriority` on the schema type
marker and the presence of allowed values. -/
def fiSeverity : FieldInformation :=
  { name := "Severity", key := "severity",
    schema := { type := "option", items := none },
    allowedValues := some [{ value := some "Low", name := none, id := "9" }] }

/-- Witness for C3 at two concrete schemas. -/
theorem get_type_spec_witness : get_type fiPriority = get_type fiSeverity :=
  (get_type_spec fiPriority).2.2.2 fiSeverity rfl rfl

/-- A Jira project resource as returned by `jira.project(key)`. -/
structure JiraProject where
  key : String
  name : String
deriving DecidableEq

/-- A Jira user resource as returned by the `user/search` endpoint. -/
structure JiraUser where
  accountId : String
  emailAddress : String
  displayName : String
deriving DecidableEq

/-- A Jira issue resource; only its `key` attribute is used here. -/
structure JiraIssue where
  key : String
deriving DecidableEq

/-- Oracle for the external Jira API client: each operation either
returns a resource or raises (modelled as `Except.error` with the
exception text). -/
structure JiraClient where
  project : String → Except String JiraProject
  userSearch : String → Except String (List JiraUser)
  issue : String → Except String JiraIssue
  create_issue_link : String → String → String → Except String Unit

/-- Source `jira_utils.get_jira_project`: look the project up, catching any
exception (logged) and returning `None` on failure. -/
def get_jira_project (jira : JiraClient) (jira_project_key : String) : Option JiraProject :=
  match jira.project jira_project_key with
  | .ok p => some p
  | .error _ => none

/-- Source `jira_utils.get_jira_user`: search users by query, take the first
result when its email address or display name matches exactly; any
exception is caught and `None` returned. -/
def get_jira_user (jira : JiraClient) (user_name : String) : Option JiraUser :=
  match jira.userSearch user_name with
  | .error _ => none
  | .ok found =>
    match found with
    | [] => none
    | u :: _ =>
      if u.emailAddress = user_name ∨ u.displayName = user_name then some u else none

/-- Source `Converter.values_to_project`: `{key: get_jira_project(...).key}`;
when the lookup returned `None`, accessing `.key` raises
`AttributeError`. -/
def values_to_project (jira : JiraClient) (values : List String)
    (_fi : FieldInformation) : Except PyError JsonValue := do
  let v ← pyHead values
  match get_jira_project jira v with
  | none => .error (.attributeError "key")
  | some p => .ok (.obj [("key", .str p.key)])

/-- Source `Converter.values_to_issuetype`: `{name: values[0]}`. -/
def values_to_issuetype (values : List String) (_fi : FieldInformation) :
    Except PyError JsonValue := do
  let v ← pyHead values
  .ok (.obj [("name", .str v)])

/-- Source `Converter.values_to_components`: `[{name: values[0]}]`. -/
def values_to_components (values : List String) (_fi : FieldInformation) :
    Except PyError JsonValue := do
  let v ← pyHead values
  .ok (.arr [.obj [("name", .str v)]])

/-- Source `Converter.values_to_assignee`: `{accountId: get_jira_user(...).accountId}`;
accessing `.accountId` on a `None` lookup result raises `AttributeError`. -/
def values_to_assignee (jira : JiraClient) (values : List String)
    (_fi : FieldInformation) : Except PyError JsonValue := do
  let v ← pyHead values
  match get_jira_user jira v with
  | none => .error (.attributeError "accountId")
  | some u => .ok (.obj [("accountId", .str u.accountId)])

/-- Source `Converter.strs_to_int`: `int(values[0])`, raising `ValueError` on a
non-numeric string. -/
def strs_to_int (values : List String) (_fi : FieldInformation) :
    Except PyError JsonValue := do
  let v ← pyHead values
  match v.trim.toInt? with
  | none => .error (.valueError ("invalid literal for int with base 10: " ++ v))
  | some n => .ok (.num n)

/-- Source `Converter.values_to_timetracking`: `{originalEstimate: values[0]}`. -/
def values_to_timetracking (values : List String) (_fi : FieldInformation) :
    Except PyError JsonValue := do
  let v ← pyHead values
  .ok (.obj [("originalEstimate", .str v)])

/-- Source `Converter.values_to_labels`: `[values[0]]`. -/
def values_to_labels (values : List String) (_fi : FieldInformation) :
    Except PyError JsonValue := do
  let v ← pyHead values
  .ok (.arr [.str v])

/-- Source `Converter.values_to_enum`: look `values[0]` up in the field's
allowed-value dictionary and return `{id: ...}`.  In the missing-value
branch the source formats its error message by calling
`field_information.get_value()`, a method `JiraFieldInformation` does not
define, so that branch raises `AttributeError` before reaching the
intended `log.error(...); exit()`. -/
def values_to_enum (values : List String) (fi : FieldInformation) :
    Except PyError JsonValue := do
  let d? ← get_allowed_values fi
  let v ← pyHead values
  match d? with
  | none => .error (.typeError "argument of type NoneType is not iterable")
  | some d =>
    match dictFind d v with
    | none => .error (.attributeError "get_value")
    | some av => .ok (.obj [("id", .str av.id)])

/-- Sequential effectful map: the Python `for value in values` loop body
appending one converted element at a time, aborting on the first error. -/
def mapMExcept {α β : Type} (f : α → Except PyError β) :
    List α → Except PyError (List β)
  | [] => .ok []
  | v :: rest => do
    let x ← f v
    let xs ← mapMExcept f rest
    .ok (x :: xs)

/-- Source `Converter.values_to_array`: when the item type is ENUM, convert each
raw value through `values_to_enum` and collect; otherwise return the raw
values unchanged. -/
def values_to_array (values : List String) (fi : FieldInformation) :
    Except PyError JsonValue :=
  if get_items_type fi = JiraFieldType.ENUM then
    (mapMExcept (fun v => values_to_enum [v] fi) values).map JsonValue.arr
  else
    .ok (.arr (values.map JsonValue.str))

/-- Source `make_name_predicate`: match a field by its `key` attribute. -/
def make_name_predicate (name : String) : FieldInformation → Bool :=
  fun fi => decide (fi.key = name)

/-- Source `make_array_predicate`: match a field classified as ARRAY. -/
def make_array_predicate : FieldInformation → Bool :=
  fun fi => decide (get_type fi = JiraFieldType.ARRAY)

/-- Source `make_enum_predicate`: match a field classified as ENUM. -/
def make_enum_predicate : FieldInformation → Bool :=
  fun fi => decide (get_type fi = JiraFieldType.ENUM)

/-- Source `make_predicates_and_convertors_list`: the ordered dispatch list of
(predicate, converter) rules. -/
def make_predicates_and_convertors_list (jira : JiraClient) :
    List ((FieldInformation → Bool) ×
          (List String → FieldInformation → Except PyError JsonValue)) :=
  [ (make_name_predicate "project", values_to_project jira),
    (make_name_predicate "issuetype", values_to_issuetype),
    (make_name_predicate "assignee", values_to_assignee jira),
    (make_name_predicate "customfield_10113", strs_to_int),
    (make_name_predicate "timetracking", values_to_timetracking),
    (make_enum_predicate, values_to_enum),
    (make_array_predicate, values_to_array) ]

/-- The dispatch loop of `__main__`: scan the rule list, apply the first
converter whose predicate holds; with no match, use `values[0]`
verbatim. -/
def dispatchConvert (jira : JiraClient) (values : List String)
    (fi : FieldInformation) : Except PyError JsonValue :=
  match (make_predicates_and_convertors_list jira).find? (fun pc => pc.1 fi) with
  | some pc => pc.2 values fi
  | none => (pyHead values).map JsonValue.str

/-- Case analysis of the dispatch scan, shared by several theorems below:
the rule list is consulted in its textual order and the first predicate
that holds selects the converter. -/
theorem dispatchConvert_cases (jira : JiraClient) (values : List String)
    (fi : FieldInformation) :
    dispatchConvert jira values fi =
      if fi.key = "project" then values_to_project jira values fi
      else if fi.key = "issuetype" then values_to_issuetype values fi
      else if fi.key = "assignee" then values_to_assignee jira values fi
      else if fi.key = "customfield_10113" then strs_to_int values fi
      else if fi.key = "timetracking" then values_to_timetracking values fi
      else if get_type fi = JiraFieldType.ENUM then values_to_enum values fi
      else if get_type fi = JiraFieldType.ARRAY then values_to_array values fi
      else (pyHead values).map JsonValue.str := by
  unfold dispatchConvert make_predicates_and_convertors_list
  by_cases h1 : fi.key = "project" <;>
    by_cases h2 : fi.key = "issuetype" <;>
    by_cases h3 : fi.key = "assignee" <;>
    by_cases h4 : fi.key = "customfield_10113" <;>
    by_cases h5 : fi.key = "timetracking" <;>
    by_cases h6 : get_type fi = JiraFieldType.ENUM <;>
    by_cases h7 : get_type fi = JiraFieldType.ARRAY <;>
    simp_all [List.find?, make_name_predicate, make_enum_predicate, make_array_predicate]

/-- C2: for every field with known metadata, the dispatch consults its
rules in the fixed order project, issuetype, assignee, customfield_10113,
timetracking, ENUM classification, ARRAY classification; the first rule
whose predicate holds supplies the value and no later rule is consulted;
with no match the value is the first raw string verbatim. -/
theorem dispatchConvert_first_match (jira : JiraClient) (values : List String)
    (fi : FieldInformation) :
    dispatchConvert jira values fi =
      if fi.key = "project" then values_to_project jira values fi
      else if fi.key = "issuetype" then values_to_issuetype values fi
      else if fi.key = "assignee" then values_to_assignee jira values fi
      else if fi.key = "customfield_10113" then strs_to_int values fi
      else if fi.key = "timetracking" then values_to_timetracking values fi
      else if get_type fi = JiraFieldType.ENUM then values_to_enum values fi
      else if get_type fi = JiraFieldType.ARRAY then values_to_array values fi
      else (pyHead values).map JsonValue.str :=
  dispatchConvert_cases jira values fi

/-- C1 (behaviour at the failing input): for the concrete ENUM field
`fiPriority` and a value absent from its allowed set, `values_to_enum`
raises `AttributeError` (the error branch calls the nonexistent method
`field_information.get_value()`) instead of reaching `log.error` and
`exit()`; a present value converts to exactly `{id: allowed_value.id}`
and no id is ever produced for the absent one. -/
theorem values_to_enum_missing_value_crash :
    values_to_enum ["Bogus"] fiPriority =
      .error (.attributeError "get_value") ∧
    values_to_enum ["High"] fiPriority = .ok (.obj [("id", .str "1")]) :=
  ⟨rfl, rfl⟩

/-- A Jira client oracle on which every API call raises. -/
def offlineJira : JiraClient :=
  { project := fun _ => .error "connection refused",
    userSearch := fun _ => .error "connection refused",
    issue := fun _ => .error "connection refused",
    create_issue_link := fun _ _ _ => .error "connection refused" }

/-- C9: whenever the tracker's project lookup raises, `get_jira_project`
catches the failure and returns no project, and `values_to_project` then
dereferences `.key` on that absent result, raising `AttributeError`
rather than producing a field value or a logged non-fatal outcome. -/
theorem values_to_project_attribute_error (jira : JiraClient) (v : String)
    (vs : List String) (fi : FieldInformation) (e : String)
    (h : jira.project v = .error e) :
    get_jira_project jira v = none ∧
    values_to_project jira (v :: vs) fi = .error (.attributeError "key") := by
  have hp : get_jira_project jira v = none := by
    unfold get_jira_project
    rw [h]
  refine ⟨hp, ?_⟩
  simp [values_to_project, pyHead, hp, Bind.bind, Except.bind]

/-- Witness for C9 on a client whose project lookup raises. -/
theorem values_to_project_attribute_error_witness :
    get_jira_project offlineJira "PRJ" = none ∧
    values_to_project offlineJira ["PRJ"] fiPriority =
      .error (.attributeError "key") :=
  values_to_project_attribute_error offlineJira "PRJ" [] fiPriority
    "connection refused" rfl

/-- Concrete `components` field: declared schema type "array" with plain
string items and no allowed values. -/
def fiComponents : FieldInformation :=
  { name := "Components", key := "components",
    schema := { type := "array", items := some "string" },
    allowedValues := none }

/-- Concrete `labels` field: declared schema type "array" with plain
string items and no allowed values. -/
def fiLabels : FieldInformation :=
  { name := "Labels", key := "labels",
    schema := { type := "array", items := some "string" },
    allowedValues := none }

/-- Counterexample for C4: encountering the `components` field routes it
through the generic dispatch, whose ARRAY rule returns the raw values
unchanged; the dead `values_to_components` function would have produced
`[{name: value}]`, a different value, so conversion of `components` does
not produce `[{name: value}]` and the converter is not invoked outside
the dispatch. -/
theorem components_dispatch_counterexample :
    dispatchConvert offlineJira ["Domain_X"] fiComponents =
      .ok (.arr [.str "Domain_X"]) ∧
    values_to_components ["Domain_X"] fiComponents =
      .ok (.arr [.obj [("name", .str "Domain_X")]]) ∧
    JsonValue.arr [.str "Domain_X"] ≠ JsonValue.arr [.obj [("name", .str "Domain_X")]] := by
  refine ⟨rfl, rfl, ?_⟩
  simp

/-- C4 (amended): `values_to_components` wraps the first raw value as
`[{name: value}]` and `values_to_labels` as `[value]`, but neither
converter appears in the dispatch list nor is invoked anywhere else;
a field named `components` or `labels` (array-typed, non-enum items) is
instead handled by the generic ARRAY rule, which returns the raw values
unchanged. -/
theorem components_labels_amended (jira : JiraClient) (fi : FieldInformation)
    (v : String) (rest : List String)
    (hkey : fi.key = "components" ∨ fi.key = "labels")
    (harr : get_type fi = JiraFieldType.ARRAY)
    (hitems : get_items_type fi ≠ JiraFieldType.ENUM) :
    values_to_components (v :: rest) fi = .ok (.arr [.obj [("name", .str v)]]) ∧
    values_to_labels (v :: rest) fi = .ok (.arr [.str v]) ∧
    dispatchConvert jira (v :: rest) fi =
      .ok (.arr ((v :: rest).map JsonValue.str)) := by
  refine ⟨rfl, rfl, ?_⟩
  rw [dispatchConvert_cases]
  have henum : get_type fi ≠ JiraFieldType.ENUM := by
    rw [harr]
    simp
  rcases hkey with hk | hk <;>
    simp [hk, henum, harr, values_to_array, hitems]

/-- Witness for the amended C4 at the concrete `labels` field. -/
theorem components_labels_amended_witness :
    values_to_labels ["PoC", "high"] fiLabels = .ok (.arr [.str "PoC"]) ∧
    dispatchConvert offlineJira ["PoC", "high"] fiLabels =
      .ok (.arr [.str "PoC", .str "high"]) := by
  have h := components_labels_amended offlineJira fiLabels "PoC" ["high"]
    (Or.inr rfl) rfl (by decide)
  exact ⟨h.2.1, h.2.2⟩

/-- The submission id an allowed-value dictionary associates with a
display value (empty when the value is absent; the theorems below only
use it under a presence hypothesis). -/
def idOfD (d : List (String × JiraAllowedValueInformation)) (v : String) : String :=
  ((dictFind d v).map (fun av => av.id)).getD ""

/-- A present display value converts through the ENUM rule to exactly its
id wrapper. -/
theorem values_to_enum_ok (fi : FieldInformation)
    (d : List (String × JiraAllowedValueInformation)) (v : String)
    (av : JiraAllowedValueInformation)
    (hall : get_allowed_values fi = .ok (some d))
    (hav : dictFind d v = some av) :
    values_to_enum [v] fi = .ok (.obj [("id", .str av.id)]) := by
  simp [values_to_enum, hall, pyHead, hav, Bind.bind, Except.bind]

/-- The element-wise ENUM conversion loop succeeds on a list of present
display values and produces the id wrappers in input order. -/
theorem mapMExcept_enum_ok (fi : FieldInformation)
    (d : List (String × JiraAllowedValueInformation))
    (hall : get_allowed_values fi = .ok (some d)) :
    ∀ values : List String, (∀ v ∈ values, (dictFind d v).isSome) →
      mapMExcept (fun v => values_to_enum [v] fi) values =
        .ok (values.map (fun v => .obj [("id", .str (idOfD d v))])) := by
  intro values
  induction values with
  | nil => intro _; rfl
  | cons v rest ih =>
    intro hmem
    have hv : (dictFind d v).isSome := hmem v (by simp)
    obtain ⟨av, hav⟩ := Option.isSome_iff_exists.mp hv
    have henum := values_to_enum_ok fi d v av hall hav
    have ihh := ih (fun x hx => hmem x (by simp [hx]))
    simp [mapMExcept, henum, ihh, idOfD, hav, Bind.bind, Except.bind]

/-- C6: for an ARRAY field whose item type is ENUM, converting N raw
values all present in the allowed set yields exactly N id-wrapper objects
in input order; for any other item type the raw values are returned
unchanged as a sequence. -/
theorem values_to_array_spec (fi : FieldInformation) (values : List String) :
    (∀ d, get_items_type fi = JiraFieldType.ENUM →
       get_allowed_values fi = .ok (some d) →
       (∀ v ∈ values, (dictFind d v).isSome) →
       values_to_array values fi =
         .ok (.arr (values.map (fun v => .obj [("id", .str (idOfD d v))])))) ∧
    (get_items_type fi ≠ JiraFieldType.ENUM →
       values_to_array values fi = .ok (.arr (values.map JsonValue.str))) := by
  constructor
  · intro d hitems hall hmem
    unfold values_to_array
    rw [if_pos hitems, mapMExcept_enum_ok fi d hall values hmem]
    rfl
  · intro hne
    unfold values_to_array
    rw [if_neg hne]

/-- Concrete array-of-enum field used in the C6 witness. -/
def fiFixVersions : FieldInformation :=
  { name := "Fix versions", key := "fixVersions",
    schema := { type := "array", items := some "version" },
    allowedValues := some [{ value := some "1.0", name := none, id := "100" },
                           { value := some "2.0", name := none, id := "200" }] }

/-- The allowed-value dictionary `get_allowed_values` computes for
`fiFixVersions`. -/
def dFixVersions : List (String × JiraAllowedValueInformation) :=
  [("1.0", { value := some "1.0", name := none, id := "100" }),
   ("2.0", { value := some "2.0", name := none, id := "200" })]

/-- Witness for C6: two present values convert to their two id wrappers
in input order. -/
theorem values_to_array_spec_witness :
    values_to_array ["2.0", "1.0"] fiFixVersions =
      .ok (.arr [.obj [("id", .str "200")], .obj [("id", .str "100")]]) := by
  have h := (values_to_array_spec fiFixVersions ["2.0", "1.0"]).1
    dFixVersions rfl rfl (by decide)
  exact h.trans (by rfl)

/-- Python `s.split(c)` for a one-character separator, on the character
list: every occurrence of the separator starts a new piece. -/
def splitOnCharList (c : Char) : List Char → List (List Char)
  | [] => [[]]
  | x :: xs =>
    match splitOnCharList c xs with
    | [] => [[]]
    | y :: ys => if x = c then [] :: y :: ys else (x :: y) :: ys

/-- Python `s.split(delimiter)` for the one-character delimiters ('=' and
':') this program passes. -/
def pySplit (s : String) (c : Char) : List String :=
  (splitOnCharList c s.data).map String.mk

/-- Python `s.strip()`: remove leading and trailing whitespace. -/
def pyStrip (s : String) : String :=
  String.mk (((s.data.dropWhile Char.isWhitespace).reverse.dropWhile
    Char.isWhitespace).reverse)

/-- Python `delimiter.join(items)`. -/
def pyJoin (delimiter : String) : List String → String
  | [] => ""
  | [x] => x
  | x :: xs => x ++ delimiter ++ pyJoin delimiter xs

/-- Source `create_issue.parse_item`: split on the delimiter, strip blanks from
the key, and rejoin the remainder as the value.  When the delimiter does
not occur, the split has a single piece, the `value` variable is never
assigned, and the final `return (key, value)` raises
`UnboundLocalError`. -/
def parse_item (s : String) (delimiter : Char) :
    Except PyError (String × String) :=
  let items := pySplit s delimiter
  let key := pyStrip (items.headD "")
  if items.length > 1 then
    .ok (key, pyJoin (String.mk [delimiter]) (items.drop 1))
  else
    .error (.unboundLocal "value")

/-- C10: an item string with no occurrence of the delimiter (the split
yields a single piece) makes `parse_item` raise instead of returning a
pair; with at least one occurrence it returns the stripped first piece
and the delimiter-rejoined remainder. -/
theorem parse_item_spec (s : String) (delimiter : Char) :
    ((pySplit s delimiter).length ≤ 1 →
       parse_item s delimiter = .error (.unboundLocal "value")) ∧
    (∀ k rest, pySplit s delimiter = k :: rest → rest ≠ [] →
       parse_item s delimiter =
         .ok (pyStrip k, pyJoin (String.mk [delimiter]) rest)) := by
  constructor
  · intro h
    simp only [parse_item]
    rw [if_neg (by omega)]
  · intro k rest hsplit hne
    simp only [parse_item, hsplit]
    rw [if_pos (by cases rest with
      | nil => exact absurd rfl hne
      | cons a l => simp)]
    simp

/-- Witness for C10: a `--set` item without "=" raises; with "=" the pair
is returned and later "=" signs stay in the value. -/
theorem parse_item_spec_witness :
    parse_item "summary" '=' = .error (.unboundLocal "value") ∧
    parse_item "summary=a=b" '=' = .ok ("summary", "a=b") := by
  constructor
  · exact (parse_item_spec "summary" '=').1 (by decide)
  · exact ((parse_item_spec "summary=a=b" '=').2 "summary" ["a", "b"]
      (by decide) (by decide)).trans (by rfl)

/-- The `JiraLoginInfo` namedtuple of `jira_utils.py`. -/
structure JiraLoginInfo where
  server : String
  user : String
  token : String
deriving DecidableEq

/-- Source `jira_utils.make_jira_login_info`: for each credential prefer the
explicit argument, else the named environment variable; raise
`UndefinedVariable` when both are absent and `ValueError` when the
resolved string is empty.  The process environment is the oracle
`env`. -/
def make_jira_login_info (env : String → Option String)
    (in_server in_user in_token : Option String) :
    Except PyError JiraLoginInfo :=
  match (match in_server with
         | some s => some s
         | none => env "JIRA_API_SERVER") with
  | none => .error (.undefinedVariable "JIRA_API_SERVER")
  | some server =>
    if server.length = 0 then .error (.valueError "Jira API server name is empty")
    else
      match (match in_user with
             | some u => some u
             | none => env "JIRA_API_USERNAME") with
      | none => .error (.undefinedVariable "JIRA_API_USERNAME")
      | some user =>
        if user.length = 0 then .error (.valueError "Jira API user name is empty")
        else
          match (match in_token with
                 | some t => some t
                 | none => env "JIRA_API_TOKEN") with
          | none => .error (.undefinedVariable "JIRA_API_TOKEN")
          | some token =>
            if token.length = 0 then
              .error (.valueError "Jira API secure token string is empty")
            else .ok ⟨server, user, token⟩

/-- C5: each credential resolves from the explicit argument whenever it
is provided (for any environment), from its named environment variable
only when the argument is absent, fails with a missing-variable error
naming that variable when both are absent, and fails with a value-empty
error when the resolved string has zero length. -/
theorem make_jira_login_info_spec (env : String → Option String) :
    (∀ s u t : String, s.length ≠ 0 → u.length ≠ 0 → t.length ≠ 0 →
       make_jira_login_info env (some s) (some u) (some t) = .ok ⟨s, u, t⟩) ∧
    (∀ s u t : String, env "JIRA_API_SERVER" = some s →
       env "JIRA_API_USERNAME" = some u → env "JIRA_API_TOKEN" = some t →
       s.length ≠ 0 → u.length ≠ 0 → t.length ≠ 0 →
       make_jira_login_info env none none none = .ok ⟨s, u, t⟩) ∧
    (∀ iu it, env "JIRA_API_SERVER" = none →
       make_jira_login_info env none iu it =
         .error (.undefinedVariable "JIRA_API_SERVER")) ∧
    (∀ s it, s.length ≠ 0 → env "JIRA_API_USERNAME" = none →
       make_jira_login_info env (some s) none it =
         .error (.undefinedVariable "JIRA_API_USERNAME")) ∧
    (∀ s u, s.length ≠ 0 → u.length ≠ 0 → env "JIRA_API_TOKEN" = none →
       make_jira_login_info env (some s) (some u) none =
         .error (.undefinedVariable "JIRA_API_TOKEN")) ∧
    (∀ iu it, make_jira_login_info env (some "") iu it =
       .error (.valueError "Jira API server name is empty")) ∧
    (∀ s it, s.length ≠ 0 →
       make_jira_login_info env (some s) (some "") it =
         .error (.valueError "Jira API user name is empty")) ∧
    (∀ s u, s.length ≠ 0 → u.length ≠ 0 →
       make_jira_login_info env (some s) (some u) (some "") =
         .error (.valueError "Jira API secure token string is empty")) := by
  refine ⟨?_, ?_, ?_, ?_, ?_, ?_, ?_, ?_⟩ <;>
    intros <;>
    simp_all [make_jira_login_info]

/-- Witness for C5: explicit arguments win over an environment that would
say otherwise, and a missing environment variable is reported by name. -/
theorem make_jira_login_info_spec_witness :
    make_jira_login_info (fun _ => some "from-env") (some "srv") (some "usr") (some "tok") =
      .ok ⟨"srv", "usr", "tok"⟩ ∧
    make_jira_login_info (fun _ => none) none (some "usr") (some "tok") =
      .error (.undefinedVariable "JIRA_API_SERVER") := by
  constructor
  · exact (make_jira_login_info_spec (fun _ => some "from-env")).1 "srv" "usr" "tok"
      (by decide) (by decide) (by decide)
  · exact (make_jira_login_info_spec (fun _ => none)).2.2.1 (some "usr") (some "tok") rfl

/-- Observable outcome of one link attempt: either the link was created
or its failure was caught and logged. -/
inductive LinkOutcome
  | linked (origin_key destination_key link_type : String)
  | failed (logMsg : String)
deriving DecidableEq

/-- Source `jira_utils.link_issue`: create one issue link, catching any
exception and logging it. -/
def link_issue (jira : JiraClient) (origin_issue destination_issue : JiraIssue)
    (link_type_str : String) : LinkOutcome :=
  match jira.create_issue_link link_type_str origin_issue.key destination_issue.key with
  | .ok _ => .linked origin_issue.key destination_issue.key link_type_str
  | .error e => .failed ("Failed to link epic to a feature. Error: " ++ e)

/-- The body of the `link_issues` loop: fetch the destination issue and
link to it, with the surrounding try/except catching any exception the
fetch raises. -/
def link_one (jira : JiraClient) (origin_issue : JiraIssue)
    (destination_and_type : String × String) : LinkOutcome :=
  match jira.issue destination_and_type.1 with
  | .ok dest => link_issue jira origin_issue dest destination_and_type.2
  | .error e => .failed ("Failed to link issue. Error: " ++ e)

/-- Source `jira_utils.link_issues`: attempt every requested link of the
destination→link-type mapping in order. -/
def link_issues (jira : JiraClient) (origin_issue : JiraIssue) :
    List (String × String) → List LinkOutcome
  | [] => []
  | p :: rest => link_one jira origin_issue p :: link_issues jira origin_issue rest

/-- C7: for every client behaviour — including one on which any call
raises — `link_issues` attempts every requested link: it always returns
one caught outcome per requested link, and the outcome of the i-th link
depends only on that link, so a failure of one attempt neither prevents
the remaining attempts nor touches the created issue. -/
theorem link_issues_independent (jira : JiraClient) (origin_issue : JiraIssue)
    (issues_and_links : List (String × String)) :
    (link_issues jira origin_issue issues_and_links).length =
      issues_and_links.length ∧
    ∀ i : Nat, (link_issues jira origin_issue issues_and_links).get? i =
      (issues_and_links.get? i).map (link_one jira origin_issue) := by
  induction issues_and_links with
  | nil =>
    refine ⟨rfl, ?_⟩
    intro i
    rfl
  | cons p rest ih =>
    refine ⟨by simp [link_issues, ih.1], ?_⟩
    intro i
    cases i with
    | zero => rfl
    | succ j => simpa [link_issues] using ih.2 j

/-- The field-id resolution step of the `__main__` loop: a user-supplied
string found in the name→id map is renamed to its id; otherwise it must
already be a key of the id→name map, else the run terminates. -/
def resolveFieldId (fields_names_map fields_ids_map : List (String × String))
    (field : String) : Except PyError String :=
  match dictFind fields_names_map field with
  | some fid => .ok fid
  | none =>
    if (dictFind fields_ids_map field).isSome then .ok field
    else .error (.exitLogged ("Not found field: " ++ field))

/-- The metadata lookup at the head of the conversion loop:
`fields_information_dict[field]`, terminating the run when absent. -/
def lookupFieldInformation
    (fields_information_dict : List (String × FieldInformation))
    (field : String) : Except PyError FieldInformation :=
  match dictFind fields_information_dict field with
  | some fi => .ok fi
  | none => .error (.exitLogged ("Information not found for field: " ++ field))

/-- The per-field pipeline of `__main__`: resolve the user-supplied
string to a field id, look its metadata up, and convert the raw values
through the dispatch, yielding the final-field-map entry. -/
def processField (jira : JiraClient)
    (fields_names_map fields_ids_map : List (String × String))
    (fields_information_dict : List (String × FieldInformation))
    (field : String) (values : List String) :
    Except PyError (String × JsonValue) := do
  let fid ← resolveFieldId fields_names_map fields_ids_map field
  let fi ← lookupFieldInformation fields_information_dict fid
  let v ← dispatchConvert jira values fi
  .ok (fid, v)

/-- C8: a user-supplied field name present in the name→id map is renamed
to its id, and the id's entry in the field-information dictionary is
exactly the FieldInformation the conversion dispatch then receives. -/
theorem field_name_roundtrip (jira : JiraClient)
    (fields_names_map fields_ids_map : List (String × String))
    (fields_information_dict : List (String × FieldInformation))
    (field fid : String) (fi : FieldInformation) (values : List String)
    (h1 : dictFind fields_names_map field = some fid)
    (h2 : dictFind fields_information_dict fid = some fi) :
    resolveFieldId fields_names_map fields_ids_map field = .ok fid ∧
    lookupFieldInformation fields_information_dict fid = .ok fi ∧
    processField jira fields_names_map fields_ids_map fields_information_dict
        field values =
      (dispatchConvert jira values fi).map (fun v => (fid, v)) := by
  have hr : resolveFieldId fields_names_map fields_ids_map field = .ok fid := by
    unfold resolveFieldId
    rw [h1]
  have hl : lookupFieldInformation fields_information_dict fid = .ok fi := by
    unfold lookupFieldInformation
    rw [h2]
  refine ⟨hr, hl, ?_⟩
  cases hd : dispatchConvert jira values fi <;>
    simp [processField, hr, hl, hd, Bind.bind, Except.bind, Except.map]

/-- Concrete maps for the C8 witness: one field whose display name maps
to its id, with metadata registered under the id. -/
def namesMapW : List (String × String) := [("Priority", "priority")]

/-- Id→name map for the C8 witness. -/
def idsMapW : List (String × String) := [("priority", "Priority")]

/-- Field-information dictionary for the C8 witness. -/
def infoDictW : List (String × FieldInformation) := [("priority", fiPriority)]

/-- Witness for C8: the name "Priority" resolves to id "priority", whose
metadata drives the ENUM conversion of the value "High". -/
theorem field_name_roundtrip_witness :
    processField offlineJira namesMapW idsMapW infoDictW "Priority" ["High"] =
      .ok ("priority", .obj [("id", .str "1")]) :=
  (field_name_roundtrip offlineJira namesMapW idsMapW infoDictW "Priority"
    "priority" fiPriority ["High"] rfl rfl).2.2.trans (by rfl)

end CreateIssue
